import Mathlib

/-!
Verification development for the crawler repository.

Shallow embedding of the event-routing layer (`src/backend/src/rabbitmq_events.py`),
the crawler lifecycle state machine (`src/backend/src/crawlers/implementations/scrapy_crawler.py`
and `src/backend/src/crawlers/interface.py`), the job store patch operation
(`src/backend/src/db.py`), the embedding vector utilities (`src/backend/src/embeddings.py`),
the content-id assignment (`src/backend/src/crawlers/scrapy/content_processors.py`),
and the status-polling monitor loop (`src/backend/src/crawlers/crawler_event_handlers.py`).
-/

namespace Crawler

/-! ## Event types (`rabbitmq_events.py`, class `CrawlerEvent`) -/

/-- The members of the Python `CrawlerEvent` enum, in source order
(`rabbitmq_events.py` lines 18-31). -/
inductive CrawlerEvent
  | START_CRAWLER
  | STOP_CRAWLER
  | PAUSE_CRAWLER
  | RESUME_CRAWLER
  | CRAWLER_STARTED
  | CRAWLER_STOPPED
  | CRAWLER_PAUSED
  | CRAWLER_RESUMED
  | CRAWLER_COMPLETED
  | CRAWLER_FAILED
  | CRAWLER_PROGRESS
  | CRAWLER_ERROR
  deriving DecidableEq, Repr

/-- The `.value` string of each enum member, exactly as in the source. -/
def CrawlerEvent.value : CrawlerEvent → String
  | .START_CRAWLER => "start_crawler"
  | .STOP_CRAWLER => "stop_crawler"
  | .PAUSE_CRAWLER => "pause_crawler"
  | .RESUME_CRAWLER => "resume_crawler"
  | .CRAWLER_STARTED => "crawler_started"
  | .CRAWLER_STOPPED => "crawler_stopped"
  | .CRAWLER_PAUSED => "crawler_paused"
  | .CRAWLER_RESUMED => "crawler_resumed"
  | .CRAWLER_COMPLETED => "crawler_completed"
  | .CRAWLER_FAILED => "crawler_failed"
  | .CRAWLER_PROGRESS => "crawler_progress"
  | .CRAWLER_ERROR => "crawler_error"

/-- Attribute table of the Python `CrawlerEvent` class: member name → member.
An attribute access `CrawlerEvent.<name>` succeeds exactly when `<name>` is in
this table; otherwise Python raises `AttributeError`. -/
def crawlerEventMembers : List (String × CrawlerEvent) :=
  [("START_CRAWLER", .START_CRAWLER),
   ("STOP_CRAWLER", .STOP_CRAWLER),
   ("PAUSE_CRAWLER", .PAUSE_CRAWLER),
   ("RESUME_CRAWLER", .RESUME_CRAWLER),
   ("CRAWLER_STARTED", .CRAWLER_STARTED),
   ("CRAWLER_STOPPED", .CRAWLER_STOPPED),
   ("CRAWLER_PAUSED", .CRAWLER_PAUSED),
   ("CRAWLER_RESUMED", .CRAWLER_RESUMED),
   ("CRAWLER_COMPLETED", .CRAWLER_COMPLETED),
   ("CRAWLER_FAILED", .CRAWLER_FAILED),
   ("CRAWLER_PROGRESS", .CRAWLER_PROGRESS),
   ("CRAWLER_ERROR", .CRAWLER_ERROR)]

/-- Resolution of an attribute reference `CrawlerEvent.<attr>`:
`some member` when defined, `none` when the access would raise `AttributeError`. -/
def lookupCrawlerEventMember (attr : String) : Option CrawlerEvent :=
  (crawlerEventMembers.find? (fun p => p.1 = attr)).map Prod.snd

/-- The event types referenced at the handler-registration sites of the
repository: `crawler_event_handlers.py` lines 405-408 reference
START_CRAWLER, STOP_CRAWLER, PAUSE_CRAWLER, RESUME_CRAWLER; `app.py` lines
535-541 reference the seven CRAWLER_* status members; and
`data_processing_handlers.py` line 49 references `PAGE_PROCESSED`. -/
def handlerRegistrationReferences : List String :=
  ["START_CRAWLER", "STOP_CRAWLER", "PAUSE_CRAWLER", "RESUME_CRAWLER",
   "CRAWLER_STARTED", "CRAWLER_STOPPED", "CRAWLER_COMPLETED", "CRAWLER_FAILED",
   "CRAWLER_PAUSED", "CRAWLER_RESUMED", "CRAWLER_PROGRESS",
   "PAGE_PROCESSED"]

/-! ## Routing keys (`rabbitmq_events.py`, `publish_event` lines 156-192) -/

/-- Routing-key selection of `RabbitMQEventManager.publish_event`: the
`routing_key` parameter defaults to `None`, and Python's `if not routing_key`
also treats the empty string as absent; in both cases the key becomes
`crawler.command.<event value>`. -/
def publishRoutingKey (routingKey : Option String) (e : CrawlerEvent) : String :=
  match routingKey with
  | some k => if k = "" then "crawler.command." ++ e.value else k
  | none => "crawler.command." ++ e.value

/-- `publish_crawler_event` (lines 278-280) forwards to `publish_event` with no
routing-key argument, so every event published through it uses the default key. -/
def publish_crawler_event_routing_key (e : CrawlerEvent) : String :=
  publishRoutingKey none e

/-- The command routing class named by the spec: events directed at a crawler. -/
def isCommandEvent : CrawlerEvent → Bool
  | .START_CRAWLER | .STOP_CRAWLER | .PAUSE_CRAWLER | .RESUME_CRAWLER => true
  | _ => false

/-- The status routing class named by the spec: broadcast lifecycle events. -/
def isStatusEvent : CrawlerEvent → Bool
  | .CRAWLER_STARTED | .CRAWLER_STOPPED | .CRAWLER_PAUSED | .CRAWLER_RESUMED
  | .CRAWLER_COMPLETED | .CRAWLER_FAILED | .CRAWLER_PROGRESS => true
  | _ => false

/-! ## Message consumption (`rabbitmq_events.py`, `_handle_message` lines
199-222 and `start_consuming` lines 224-256) -/

/-- What a registered handler does when invoked on a message's data. -/
inductive HandlerBehavior
  | ok
  | raises (msg : String)
  deriving DecidableEq, Repr

/-- Broker-visible outcome for one delivered message. -/
inductive MsgOutcome
  | acked
  | rejectedRequeue
  | rejectedDrop
  deriving DecidableEq, Repr

/-- `_handle_message`: the input is `none` when the body cannot be decoded
(outer `except` → `basic_nack(requeue=False)`), otherwise the decoded
`event_type`. Result: the broker outcome and whether a handler was invoked.
Registered handler returning normally → `basic_ack`; registered handler
raising → `basic_nack(requeue=True)`; no registered handler → `basic_ack`
without invoking anything. -/
def handleMessage (handlers : String → Option HandlerBehavior)
    (decoded : Option String) : MsgOutcome × Bool :=
  match decoded with
  | none => (.rejectedDrop, false)
  | some eventType =>
    match handlers eventType with
    | some .ok => (.acked, true)
    | some (.raises _) => (.rejectedRequeue, true)
    | none => (.acked, false)

/-- `start_consuming` sets `basic_qos(prefetch_count=1)` (line 240). -/
def consumerPrefetchCount : Nat := 1

/-! ## Crawler lifecycle (`interface.py`, `scrapy_crawler.py`) -/

/-- `CrawlerStatus` enum (`interface.py` lines 11-18). -/
inductive CrawlerStatus
  | IDLE
  | RUNNING
  | PAUSED
  | STOPPED
  | ERROR
  | COMPLETED
  deriving DecidableEq, Repr

/-- `CrawlerStats` dataclass (`interface.py` lines 21-29); times modelled as
naturals, duration as their difference. -/
structure CrawlerStats where
  items_scraped : Nat := 0
  pages_visited : Nat := 0
  errors_count : Nat := 0
  start_time : Option Nat := none
  end_time : Option Nat := none
  duration : Option Nat := none
  deriving DecidableEq, Repr

/-- The mutable state of one `ScrapyCrawler` instance that the lifecycle
operations read and write. -/
structure ScrapyCrawler where
  status : CrawlerStatus := .IDLE
  stats : CrawlerStats := {}
  error_message : Option String := none
  deriving DecidableEq, Repr

/-- `CrawlerInterface._finalize_stats` (`scrapy_crawler.py` lines 221-225):
set `end_time` to now and, when `start_time` is set, `duration` to the
elapsed time. -/
def finalizeStats (st : CrawlerStats) (now : Nat) : CrawlerStats :=
  { st with
    end_time := some now
    duration := match st.start_time with
      | some t => some (now - t)
      | none => st.duration }

/-- `ScrapyCrawler.pause` (lines 100-116): when the status is not RUNNING,
log and return `False` with no state change; otherwise set the status to
PAUSED and return `True`. The body raises nothing (the guard branch only
logs), so the `except` clause is unreachable. -/
def ScrapyCrawler.pause (c : ScrapyCrawler) : ScrapyCrawler × Bool :=
  if c.status ≠ .RUNNING then (c, false)
  else ({ c with status := .PAUSED }, true)

/-- `ScrapyCrawler.stop` (lines 77-98): when the status is neither RUNNING nor
PAUSED, log and return `True` with no state change; otherwise stop the runner,
finalize the statistics, set the status to STOPPED and return `True`. -/
def ScrapyCrawler.stop (c : ScrapyCrawler) (now : Nat) : ScrapyCrawler × Bool :=
  if c.status ≠ .RUNNING ∧ c.status ≠ .PAUSED then (c, true)
  else ({ c with stats := finalizeStats c.stats now, status := .STOPPED }, true)

/-- `ScrapyCrawler.resume` (lines 118-131). -/
def ScrapyCrawler.resume (c : ScrapyCrawler) : ScrapyCrawler × Bool :=
  if c.status ≠ .PAUSED then (c, false)
  else ({ c with status := .RUNNING }, true)

/-- `CrawlerInterface.is_running` (`interface.py` lines 141-143). -/
def ScrapyCrawler.is_running (c : ScrapyCrawler) : Bool :=
  c.status = .RUNNING

/-! ## Crawler Manager (`interface.py`, class `CrawlerManager`) -/

/-- `CrawlerManager.stop_all` (lines 193-198): for each registered crawler,
invoke `stop()` only when `is_running()` holds; every other crawler is left
untouched. The registry is modelled as the list of its values. -/
def stop_all (crawlers : List ScrapyCrawler) (now : Nat) : List ScrapyCrawler :=
  crawlers.map (fun c => if c.is_running then (c.stop now).1 else c)

/-! ## Embedding vector utilities (`embeddings.py`) -/

/-- `pad_vector` (lines 45-48): truncate when strictly longer than `dims`,
otherwise append zeros up to `dims`. Floats modelled as reals. -/
def pad_vector (vector : List ℝ) (dims : Nat) : List ℝ :=
  if vector.length > dims then vector.take dims
  else vector ++ List.replicate (dims - vector.length) 0

/-- `truncate_or_pad_vector` (lines 50-54): truncate when at least `dims` long,
otherwise append zeros up to `dims`. -/
def truncate_or_pad_vector (vector : List ℝ) (dims : Nat) : List ℝ :=
  if vector.length ≥ dims then vector.take dims
  else vector ++ List.replicate (dims - vector.length) 0

/-- Sum of squares of the entries, the quantity under `np.linalg.norm`'s root. -/
def sumSq (v : List ℝ) : ℝ :=
  (v.map (fun x => x * x)).sum

/-- `np.linalg.norm(embedding)`: the L2 norm. -/
noncomputable def norm2 (v : List ℝ) : ℝ :=
  Real.sqrt (sumSq v)

/-- `normalize` (lines 61-67): return the input unchanged when its norm is 0,
otherwise divide every entry by the norm. -/
noncomputable def normalize (embedding : List ℝ) : List ℝ :=
  if norm2 embedding = 0 then embedding
  else embedding.map (fun x => x / norm2 embedding)

/-! ## Job store (`db.py`, `update_job` lines 128-155; `models.py`, `JobUpdate`) -/

/-- A row of the `jobs` table (`models.py` lines 43-55). JSON payloads are
carried opaquely as strings; timestamps as naturals. -/
structure JobRow where
  id : String
  status : String
  parameters : String
  result : Option String
  created_at : Nat
  updated_at : Nat
  deriving DecidableEq, Repr

/-- `JobUpdate` pydantic model (`models.py` lines 63-65): both fields default
to `None`, denoting an omitted field. -/
structure JobUpdate where
  status : Option String := none
  result : Option String := none
  deriving DecidableEq, Repr

/-- The jobs table, keyed by id. -/
def JobsDb := String → Option JobRow

/-- The row produced by the SQL `UPDATE ... SET` of `update_job` on an existing
row: the fields present in the patch, plus `updated_at = NOW()`; every other
column keeps its value. -/
def patchedRow (row : JobRow) (patch : JobUpdate) (now : Nat) : JobRow :=
  { row with
    status := match patch.status with
      | some s => s
      | none => row.status
    result := match patch.result with
      | some r => some r
      | none => row.result
    updated_at := now }

/-- `update_job` (`db.py` lines 128-155): when the patch carries neither
`status` nor `result`, no SQL UPDATE is issued and the current row is returned
via `get_job`; otherwise the row with the given id is updated with the present
fields and `updated_at = NOW()`, and the updated row is returned (`RETURNING *`;
`none` when no row has that id). Returns the new table and the returned row. -/
def update_job (db : JobsDb) (job_id : String) (job_up : JobUpdate) (now : Nat) :
    JobsDb × Option JobRow :=
  if job_up.status = none ∧ job_up.result = none then
    (db, db job_id)
  else
    match db job_id with
    | none => (db, none)
    | some row =>
      let row' := patchedRow row job_up now
      (fun k => if k = job_id then some row' else db k, some row')

/-! ## Content id assignment (`content_processors.py`, `generate_content_id`
lines 40-43): `hashlib.sha256(f"{url}:{content}".encode()).hexdigest()[:16]`
prefixed with `content_`. SHA-256 (FIPS 180-4) is embedded below over `Nat`
with explicit reduction mod 2^32. -/

/-- Reduce to a 32-bit word. -/
def w32 (n : Nat) : Nat := n % 4294967296

/-- Bitwise complement on a 32-bit word. -/
def wnot (n : Nat) : Nat := Nat.xor n 4294967295

/-- Right rotation of a 32-bit word by `k` places. -/
def rotr (k n : Nat) : Nat :=
  Nat.lor (n >>> k) (w32 (n <<< (32 - k)))

/-- SHA-256 round constants (fractional parts of cube roots of the first 64
primes). -/
def sha256K : List Nat :=
  [1116352408, 1899447441, 3049323471, 3921009573, 961987163, 1508970993, 2453635748, 2870763221,
   3624381080, 310598401, 607225278, 1426881987, 1925078388, 2162078206, 2614888103, 3248222580,
   3835390401, 4022224774, 264347078, 604807628, 770255983, 1249150122, 1555081692, 1996064986,
   2554220882, 2821834349, 2952996808, 3210313671, 3336571891, 3584528711, 113926993, 338241895,
   666307205, 773529912, 1294757372, 1396182291, 1695183700, 1986661051, 2177026350, 2456956037,
   2730485921, 2820302411, 3259730800, 3345764771, 3516065817, 3600352804, 4094571909, 275423344,
   430227734, 506948616, 659060556, 883997877, 958139571, 1322822218, 1537002063, 1747873779,
   1955562222, 2024104815, 2227730452, 2361852424, 2428436474, 2756734187, 3204031479, 3329325298]

/-- SHA-256 working state: the eight 32-bit words a..h. -/
structure Sha256State where
  a : Nat
  b : Nat
  c : Nat
  d : Nat
  e : Nat
  f : Nat
  g : Nat
  h : Nat
  deriving DecidableEq, Repr

/-- SHA-256 initial hash value (fractional parts of square roots of the first
8 primes). -/
def sha256Init : Sha256State :=
  ⟨1779033703, 3144134277, 1013904242, 2773480762,
   1359893119, 2600822924, 528734635, 1541459225⟩

/-- Big-endian 8-byte encoding of the message bit length. -/
def be64 (n : Nat) : List Nat :=
  [n >>> 56 % 256, n >>> 48 % 256, n >>> 40 % 256, n >>> 32 % 256,
   n >>> 24 % 256, n >>> 16 % 256, n >>> 8 % 256, n % 256]

/-- Big-endian 4-byte encoding of a 32-bit word. -/
def be32 (n : Nat) : List Nat :=
  [n >>> 24 % 256, n >>> 16 % 256, n >>> 8 % 256, n % 256]

/-- SHA-256 padding: append `0x80`, zeros to 56 mod 64, and the 64-bit
big-endian bit length. -/
def sha256Pad (msg : List Nat) : List Nat :=
  let padZeros := (64 + 55 - msg.length % 64) % 64
  msg ++ [128] ++ List.replicate padZeros 0 ++ be64 (8 * msg.length)

/-- Split a byte list into 64-byte blocks; the fuel bounds the number of
blocks and is always instantiated with the list length, which suffices since
every step consumes at least one byte. -/
def toBlocksAux : Nat → List Nat → List (List Nat)
  | 0, _ => []
  | _, [] => []
  | fuel + 1, l => l.take 64 :: toBlocksAux fuel (l.drop 64)

/-- Split the padded message into 64-byte blocks. -/
def toBlocks (l : List Nat) : List (List Nat) :=
  toBlocksAux l.length l

/-- Combine bytes into 32-bit words, big-endian. -/
def bytesToWords : List Nat → List Nat
  | b0 :: b1 :: b2 :: b3 :: rest =>
    (((b0 * 256 + b1) * 256 + b2) * 256 + b3) :: bytesToWords rest
  | _ => []

/-- Extend the sixteen block words to the 64-entry message schedule. -/
def msgSchedule (ws : List Nat) : Array Nat :=
  (List.range 48).foldl
    (fun w i =>
      let t := i + 16
      let s0 :=
        Nat.xor (Nat.xor (rotr 7 (w.getD (t - 15) 0)) (rotr 18 (w.getD (t - 15) 0)))
          ((w.getD (t - 15) 0) >>> 3)
      let s1 :=
        Nat.xor (Nat.xor (rotr 17 (w.getD (t - 2) 0)) (rotr 19 (w.getD (t - 2) 0)))
          ((w.getD (t - 2) 0) >>> 10)
      w.push (w32 (w.getD (t - 16) 0 + s0 + w.getD (t - 7) 0 + s1)))
    ws.toArray

/-- One round of the SHA-256 compression function. -/
def compressRound (k wt : Nat) (s : Sha256State) : Sha256State :=
  let S1 := Nat.xor (Nat.xor (rotr 6 s.e) (rotr 11 s.e)) (rotr 25 s.e)
  let ch := Nat.xor (Nat.land s.e s.f) (Nat.land (wnot s.e) s.g)
  let temp1 := w32 (s.h + S1 + ch + k + wt)
  let S0 := Nat.xor (Nat.xor (rotr 2 s.a) (rotr 13 s.a)) (rotr 22 s.a)
  let maj := Nat.xor (Nat.xor (Nat.land s.a s.b) (Nat.land s.a s.c)) (Nat.land s.b s.c)
  let temp2 := w32 (S0 + maj)
  ⟨w32 (temp1 + temp2), s.a, s.b, s.c, w32 (s.d + temp1), s.e, s.f, s.g⟩

/-- Process one 64-byte block. -/
def processBlock (hs : Sha256State) (block : List Nat) : Sha256State :=
  let w := msgSchedule (bytesToWords block)
  let kArr := sha256K.toArray
  let s := (List.range 64).foldl
    (fun s i => compressRound (kArr.getD i 0) (w.getD i 0) s) hs
  ⟨w32 (hs.a + s.a), w32 (hs.b + s.b), w32 (hs.c + s.c), w32 (hs.d + s.d),
   w32 (hs.e + s.e), w32 (hs.f + s.f), w32 (hs.g + s.g), w32 (hs.h + s.h)⟩

/-- SHA-256 digest of a byte sequence, as 32 bytes. -/
def sha256 (msg : List Nat) : List Nat :=
  let final := (toBlocks (sha256Pad msg)).foldl processBlock sha256Init
  be32 final.a ++ be32 final.b ++ be32 final.c ++ be32 final.d ++
  be32 final.e ++ be32 final.f ++ be32 final.g ++ be32 final.h

/-- Lowercase hex digit, as produced by `hexdigest()`. -/
def hexDigit (n : Nat) : Char :=
  if n < 10 then Char.ofNat (48 + n) else Char.ofNat (87 + n)

/-- Lowercase hex rendering of a byte sequence (`hexdigest()`). -/
def hexChars (bytes : List Nat) : List Char :=
  bytes.flatMap (fun b => [hexDigit (b / 16), hexDigit (b % 16)])

/-- UTF-8 encoding of one character (`str.encode()` uses UTF-8). -/
def utf8EncodeChar (c : Char) : List Nat :=
  let n := c.toNat
  if n < 128 then [n]
  else if n < 2048 then [192 + n / 64, 128 + n % 64]
  else if n < 65536 then [224 + n / 4096, 128 + (n / 64) % 64, 128 + n % 64]
  else [240 + n / 262144, 128 + (n / 4096) % 64, 128 + (n / 64) % 64, 128 + n % 64]

/-- UTF-8 encoding of a string. -/
def utf8Encode (s : String) : List Nat :=
  s.data.flatMap utf8EncodeChar

/-- `ContentProcessor.generate_content_id` (`content_processors.py` lines
40-43): `content_` followed by the first 16 hex digits of the SHA-256 digest of
`f"{url}:{content}"`. -/
def generate_content_id (url content : String) : String :=
  String.mk ("content_".data ++ (hexChars (sha256 (utf8Encode (url ++ ":" ++ content)))).take 16)

/-! ## Status-polling monitor loop (`crawler_event_handlers.py`,
`CrawlerEventHandler._start_crawler_monitoring` lines 317-398) -/

/-- What one `get_crawler_status_by_name` poll reports: the `status` string and
the `error_message` payload used by the failure event. -/
structure Poll where
  status : String
  error_message : String
  deriving DecidableEq, Repr

/-- The observable actions of one iteration of `monitor_loop`: publishing a
`crawler_progress` event, removing the job from `active_crawlers`, and
publishing the terminal `crawler_completed` / `crawler_failed` event. -/
inductive MonitorAction
  | progress (s : String)
  | removeCrawler
  | publishCompleted
  | publishFailed (err : String)
  deriving DecidableEq, Repr

/-- The "done-like" statuses of line 350: `['completed', 'finished', 'done']`. -/
def doneLike (s : String) : Bool :=
  s = "completed" || s = "finished" || s = "done"

/-- The "error-like" statuses of line 369: `['failed', 'error', 'stopped']`. -/
def errorLike (s : String) : Bool :=
  s = "failed" || s = "error" || s = "stopped"

/-- The updated `consecutive_same_status` counter of one iteration: reset to 0
on a status change, incremented otherwise (lines 335-347). -/
def nextCount (p : Poll) (last : Option String) (count : Nat) : Nat :=
  if some p.status = last then count + 1 else 0

/-- The `crawler_progress` publication of one iteration: published exactly
when the status changed (lines 335-343). -/
def progressActions (p : Poll) (last : Option String) : List MonitorAction :=
  if some p.status ≠ last then [.progress p.status] else []

/-- `monitor_loop` over a finite sequence of polls, carrying `last_status` and
`consecutive_same_status`, and returning the emitted actions in order. Each
iteration: publish `crawler_progress` when the status changed (and reset the
counter, else increment it); on a done-like status pop the job and publish
`crawler_completed`, then break; on an error-like status with the updated
counter above 3 pop the job and publish `crawler_failed` with the poll's
error message, then break; otherwise continue with the next poll. The loop
also ends when the poll stream does. -/
def monitorRun : List Poll → Option String → Nat → List MonitorAction
  | [], _, _ => []
  | p :: rest, last, count =>
    if doneLike p.status then
      progressActions p last ++ [.removeCrawler, .publishCompleted]
    else if errorLike p.status ∧ nextCount p last count > 3 then
      progressActions p last ++ [.removeCrawler, .publishFailed p.error_message]
    else
      progressActions p last ++ monitorRun rest (some p.status) (nextCount p last count)

/-- The monitor state `(last_status, consecutive_same_status)` is reachable
after observing the poll-status history `h`: the history ends with
`count + 1` copies of the last status. The initial state
(`last_status = None`, counter 0, empty history) satisfies it vacuously. -/
def MonitorInv (h : List String) (last : Option String) (count : Nat) : Prop :=
  ∀ s, last = some s → ∃ pre, h = pre ++ List.replicate (count + 1) s

/-! ## Concrete inputs used by the witnesses -/

/-- A crawler in the paused state. -/
def pausedCrawler : ScrapyCrawler :=
  { status := .PAUSED, stats := { start_time := some 3 }, error_message := none }

/-- A crawler in the running state. -/
def runningCrawler : ScrapyCrawler :=
  { status := .RUNNING, stats := { start_time := some 2 }, error_message := none }

/-- An idle crawler. -/
def idleCrawler : ScrapyCrawler := {}

/-- Handler table with one normally-returning and one raising handler. -/
def sampleHandlers : String → Option HandlerBehavior :=
  fun et =>
    if et = "start_crawler" then some .ok
    else if et = "stop_crawler" then some (.raises "boom")
    else none

/-- One stored job row. -/
def sampleRow : JobRow :=
  { id := "j1", status := "pending", parameters := "domain=x.test",
    result := none, created_at := 1, updated_at := 1 }

/-- A jobs table holding only `sampleRow`. -/
def sampleDb : JobsDb :=
  fun k => if k = "j1" then some sampleRow else none

/-- A patch carrying only a status. -/
def samplePatch : JobUpdate := { status := some "running" }

/-- The patch carrying nothing. -/
def emptyPatch : JobUpdate := {}

/-- Five consecutive identical error-like polls. -/
def failingPolls : List Poll :=
  List.replicate 5 { status := "failed", error_message := "spider crashed" }

/-! ## Theorems -/

/-- C1, counterexample: `publish_crawler_event` publishes the status event
`crawler_started` with routing key `crawler.command.crawler_started`, not the
`crawler.status.crawler_started` key the claim requires for status events. -/
theorem default_routing_key_status_counterexample :
    publish_crawler_event_routing_key .CRAWLER_STARTED = "crawler.command.crawler_started" ∧
    isStatusEvent .CRAWLER_STARTED = true ∧
    publish_crawler_event_routing_key .CRAWLER_STARTED ≠ "crawler.status.crawler_started" := by
  refine ⟨rfl, rfl, ?_⟩
  decide

/-- C1, amended: every event published without an explicit routing-key override
(in particular via `publish_crawler_event`) is given the command-shaped key
`crawler.command.<event>`, regardless of its routing class; command events thus
match the claimed shape while status events do not receive
`crawler.status.<event>` keys. -/
theorem default_routing_key_always_command (e : CrawlerEvent) :
    publish_crawler_event_routing_key e = "crawler.command." ++ e.value ∧
    (isStatusEvent e = true →
      publish_crawler_event_routing_key e ≠ "crawler.status." ++ e.value) := by
  cases e <;> exact ⟨rfl, by decide⟩

/-- Witness for the amended C1 at the status event `crawler_started`. -/
theorem default_routing_key_always_command_witness :
    isStatusEvent .CRAWLER_STARTED = true ∧
    publish_crawler_event_routing_key .CRAWLER_STARTED =
      "crawler.command." ++ CrawlerEvent.CRAWLER_STARTED.value ∧
    publish_crawler_event_routing_key .CRAWLER_STARTED ≠
      "crawler.status." ++ CrawlerEvent.CRAWLER_STARTED.value :=
  ⟨rfl, (default_routing_key_always_command .CRAWLER_STARTED).1,
   (default_routing_key_always_command .CRAWLER_STARTED).2 rfl⟩

/-- C2: the consumer uses prefetch 1, and for a delivered, decodable message
exactly one outcome occurs (the embedding returns exactly one): a registered
handler that returns normally leads to an ack with the handler invoked; a
registered handler that raises leads to a reject-with-requeue; an unregistered
event type leads to an ack with no handler invoked. -/
theorem consumer_ack_semantics (handlers : String → Option HandlerBehavior)
    (eventType : String) :
    consumerPrefetchCount = 1 ∧
    (handlers eventType = some .ok →
      handleMessage handlers (some eventType) = (.acked, true)) ∧
    (∀ m, handlers eventType = some (.raises m) →
      handleMessage handlers (some eventType) = (.rejectedRequeue, true)) ∧
    (handlers eventType = none →
      handleMessage handlers (some eventType) = (.acked, false)) := by
  refine ⟨rfl, ?_, ?_, ?_⟩
  · intro h
    simp [handleMessage, h]
  · intro m h
    simp [handleMessage, h]
  · intro h
    simp [handleMessage, h]

/-- Witness for C2 on a concrete handler table covering all three cases. -/
theorem consumer_ack_semantics_witness :
    (sampleHandlers "start_crawler" = some .ok ∧
      handleMessage sampleHandlers (some "start_crawler") = (.acked, true)) ∧
    (sampleHandlers "stop_crawler" = some (.raises "boom") ∧
      handleMessage sampleHandlers (some "stop_crawler") = (.rejectedRequeue, true)) ∧
    (sampleHandlers "mystery_event" = none ∧
      handleMessage sampleHandlers (some "mystery_event") = (.acked, false)) :=
  ⟨⟨by decide, (consumer_ack_semantics sampleHandlers "start_crawler").2.1 (by decide)⟩,
   ⟨by decide, (consumer_ack_semantics sampleHandlers "stop_crawler").2.2.1 "boom" (by decide)⟩,
   ⟨by decide, (consumer_ack_semantics sampleHandlers "mystery_event").2.2.2 (by decide)⟩⟩

/-- C3: invalid-state lifecycle calls are side-effect-free no-ops with fixed
returns: `pause` on a crawler that is not running returns `False` and leaves
the whole state (status and statistics) unchanged, and `stop` on a crawler
that is neither running nor paused returns `True` and leaves the state
unchanged; both are total functions of the state, so neither raises. -/
theorem invalid_state_calls_are_noops (c : ScrapyCrawler) (now : Nat) :
    (c.status ≠ .RUNNING → c.pause = (c, false)) ∧
    (c.status ≠ .RUNNING ∧ c.status ≠ .PAUSED → c.stop now = (c, true)) := by
  constructor
  · intro h
    simp [ScrapyCrawler.pause, h]
  · intro h
    simp [ScrapyCrawler.stop, h]

/-- Witness for C3 on an idle crawler. -/
theorem invalid_state_calls_are_noops_witness :
    idleCrawler.status ≠ .RUNNING ∧
    (idleCrawler.status ≠ .RUNNING ∧ idleCrawler.status ≠ .PAUSED) ∧
    idleCrawler.pause = (idleCrawler, false) ∧
    idleCrawler.stop 7 = (idleCrawler, true) :=
  ⟨by decide, ⟨by decide, by decide⟩,
   (invalid_state_calls_are_noops idleCrawler 7).1 (by decide),
   (invalid_state_calls_are_noops idleCrawler 7).2 ⟨by decide, by decide⟩⟩

/-- C8, counterexample: `stop_all` leaves a paused crawler untouched — it is
skipped, not stopped (invoking `stop` would have made its status STOPPED). -/
theorem stop_all_paused_counterexample :
    pausedCrawler.status = .PAUSED ∧
    stop_all [pausedCrawler] 9 = [pausedCrawler] ∧
    (pausedCrawler.stop 9).1.status = .STOPPED ∧
    (stop_all [pausedCrawler] 9).map ScrapyCrawler.status ≠ [CrawlerStatus.STOPPED] := by
  refine ⟨rfl, by decide, by decide, by decide⟩

/-- C8, amended: `stop_all` invokes `stop` exactly on the registered crawlers
whose status is RUNNING; every crawler in any other state — paused included,
as well as already-stopped ones — is skipped and left unchanged. -/
theorem stop_all_stops_only_running (crawlers : List ScrapyCrawler) (now i : Nat)
    (c : ScrapyCrawler) (h : crawlers[i]? = some c) :
    (stop_all crawlers now).length = crawlers.length ∧
    (c.status = .RUNNING → (stop_all crawlers now)[i]? = some (c.stop now).1) ∧
    (c.status ≠ .RUNNING → (stop_all crawlers now)[i]? = some c) := by
  refine ⟨by simp [stop_all], ?_, ?_⟩
  · intro hs
    simp [stop_all, List.getElem?_map, h, ScrapyCrawler.is_running, hs]
  · intro hs
    simp [stop_all, List.getElem?_map, h, ScrapyCrawler.is_running, hs]

/-- Witness for the amended C8 on a registry holding one running and one
paused crawler: the paused one is skipped, the running one is stopped. -/
theorem stop_all_stops_only_running_witness :
    [runningCrawler, pausedCrawler][1]? = some pausedCrawler ∧
    pausedCrawler.status ≠ .RUNNING ∧
    (stop_all [runningCrawler, pausedCrawler] 4)[1]? = some pausedCrawler ∧
    [runningCrawler, pausedCrawler][0]? = some runningCrawler ∧
    (stop_all [runningCrawler, pausedCrawler] 4)[0]? = some (runningCrawler.stop 4).1 :=
  ⟨by decide, by decide,
   (stop_all_stops_only_running [runningCrawler, pausedCrawler] 4 1 pausedCrawler
      (by decide)).2.2 (by decide),
   by decide,
   (stop_all_stops_only_running [runningCrawler, pausedCrawler] 4 0 runningCrawler
      (by decide)).2.1 rfl⟩

/-- C9: the reference `CrawlerEvent.PAGE_PROCESSED` at the registration site of
`setup_data_processing_handlers` (`data_processing_handlers.py` line 49) does
not resolve: `PAGE_PROCESSED` is not a member of the `CrawlerEvent` enum, so
the attribute access raises `AttributeError` and registration fails, contrary
to the claim. It is the only unresolvable reference among the repository's
handler-registration sites. -/
theorem page_processed_not_a_member :
    lookupCrawlerEventMember "PAGE_PROCESSED" = none ∧
    "PAGE_PROCESSED" ∈ handlerRegistrationReferences ∧
    handlerRegistrationReferences.filter
      (fun r => (lookupCrawlerEventMember r).isNone) = ["PAGE_PROCESSED"] := by
  refine ⟨by decide, by decide, by decide⟩

/-- C10: `pad_vector` and `truncate_or_pad_vector` are extensionally equal,
including at the boundary `len(v) = d`, where `pad_vector` pads with zero
zeros while `truncate_or_pad_vector` truncates to the full length. -/
theorem pad_vector_eq_truncate_or_pad (v : List ℝ) (dims : Nat) :
    pad_vector v dims = truncate_or_pad_vector v dims := by
  unfold pad_vector truncate_or_pad_vector
  rcases lt_trichotomy v.length dims with h | h | h
  · rw [if_neg (by omega), if_neg (by omega)]
  · rw [if_neg (by omega), if_pos (by omega), List.take_of_length_le (by omega),
      show dims - v.length = 0 by omega]
    simp
  · rw [if_pos (by omega), if_pos (by omega)]

/-- C6: `update_job` is a partial patch. Other rows are untouched; an empty
patch leaves the table unchanged and returns the current row; a non-empty
patch on an existing row updates exactly the present fields plus
`updated_at = now`, keeping `id`, `parameters`, `created_at` and any omitted
field, and returns the updated row. -/
theorem update_job_partial_patch (db : JobsDb) (job_id : String)
    (job_up : JobUpdate) (now : Nat) (row : JobRow) :
    (∀ k, k ≠ job_id → (update_job db job_id job_up now).1 k = db k) ∧
    (job_up.status = none → job_up.result = none →
      update_job db job_id job_up now = (db, db job_id)) ∧
    (db job_id = some row → job_up.status ≠ none ∨ job_up.result ≠ none →
      (update_job db job_id job_up now).1 job_id = some (patchedRow row job_up now) ∧
      (update_job db job_id job_up now).2 = some (patchedRow row job_up now) ∧
      (patchedRow row job_up now).id = row.id ∧
      (patchedRow row job_up now).parameters = row.parameters ∧
      (patchedRow row job_up now).created_at = row.created_at ∧
      (patchedRow row job_up now).updated_at = now ∧
      (job_up.status = none → (patchedRow row job_up now).status = row.status) ∧
      (job_up.result = none → (patchedRow row job_up now).result = row.result)) := by
  refine ⟨?_, ?_, ?_⟩
  · intro k hk
    unfold update_job
    split
    · rfl
    · cases hdb : db job_id with
      | none => simp
      | some r => simp [hk]
  · intro h1 h2
    unfold update_job
    rw [if_pos ⟨h1, h2⟩]
  · intro hdb hne
    have hcond : ¬(job_up.status = none ∧ job_up.result = none) := by
      rcases hne with h | h
      · exact fun hc => h hc.1
      · exact fun hc => h hc.2
    unfold update_job
    rw [if_neg hcond, hdb]
    refine ⟨by simp, rfl, rfl, rfl, rfl, rfl, ?_, ?_⟩
    · intro h
      simp [patchedRow, h]
    · intro h
      simp [patchedRow, h]

/-- Witness for C6: a patch carrying only a status leaves other rows and the
untouched columns alone; the empty patch changes nothing. -/
theorem update_job_partial_patch_witness :
    (update_job sampleDb "j1" samplePatch 9).1 "j2" = sampleDb "j2" ∧
    update_job sampleDb "j1" emptyPatch 9 = (sampleDb, sampleDb "j1") ∧
    (update_job sampleDb "j1" samplePatch 9).1 "j1" =
      some (patchedRow sampleRow samplePatch 9) ∧
    (patchedRow sampleRow samplePatch 9).parameters = sampleRow.parameters ∧
    (patchedRow sampleRow samplePatch 9).created_at = sampleRow.created_at ∧
    (patchedRow sampleRow samplePatch 9).updated_at = 9 ∧
    (patchedRow sampleRow samplePatch 9).result = sampleRow.result :=
  ⟨(update_job_partial_patch sampleDb "j1" samplePatch 9 sampleRow).1 "j2" (by decide),
   (update_job_partial_patch sampleDb "j1" emptyPatch 9 sampleRow).2.1 rfl rfl,
   ((update_job_partial_patch sampleDb "j1" samplePatch 9 sampleRow).2.2
      (by decide) (Or.inl (by decide))).1,
   ((update_job_partial_patch sampleDb "j1" samplePatch 9 sampleRow).2.2
      (by decide) (Or.inl (by decide))).2.2.2.1,
   ((update_job_partial_patch sampleDb "j1" samplePatch 9 sampleRow).2.2
      (by decide) (Or.inl (by decide))).2.2.2.2.1,
   ((update_job_partial_patch sampleDb "j1" samplePatch 9 sampleRow).2.2
      (by decide) (Or.inl (by decide))).2.2.2.2.2.1,
   ((update_job_partial_patch sampleDb "j1" samplePatch 9 sampleRow).2.2
      (by decide) (Or.inl (by decide))).2.2.2.2.2.2.2 rfl⟩

/-- C7: the content id is `content_` followed by the first 16 hex digits of
the SHA-256 digest of `url ++ ":" ++ content` (first conjunct, for every url
and content); at url `http://x.test/a` and content `hello` it evaluates to the
externally validated digest prefix `content_3fcf347e5161c530`; determinism on
identical `(url, content)` pairs is immediate since the assignment is a pure
function of the pair (third conjunct). -/
theorem generate_content_id_spec :
    (∀ url content : String,
      generate_content_id url content =
        String.mk ("content_".data ++
          (hexChars (sha256 (utf8Encode (url ++ ":" ++ content)))).take 16)) ∧
    generate_content_id "http://x.test/a" "hello" = "content_3fcf347e5161c530" ∧
    (∀ u1 c1 u2 c2 : String, u1 = u2 → c1 = c2 →
      generate_content_id u1 c1 = generate_content_id u2 c2) := by
  refine ⟨fun url content => rfl, ?_, ?_⟩
  · set_option maxRecDepth 10000 in decide
  · intro u1 c1 u2 c2 hu hc
    rw [hu, hc]

/-- Witness for C7: the two hypotheses of the determinism conjunct hold at the
example pair. -/
theorem generate_content_id_spec_witness :
    generate_content_id "http://x.test/a" "hello" =
      generate_content_id "http://x.test/a" "hello" :=
  generate_content_id_spec.2.2 "http://x.test/a" "hello" "http://x.test/a" "hello" rfl rfl

/-- The truncated/padded vector always has exactly the target length. -/
theorem length_truncate_or_pad (v : List ℝ) (dims : Nat) :
    (truncate_or_pad_vector v dims).length = dims := by
  unfold truncate_or_pad_vector
  split
  · simp
    omega
  · simp
    omega

/-- The sum of squares of a real vector is nonnegative. -/
theorem sumSq_nonneg (v : List ℝ) : 0 ≤ sumSq v := by
  unfold sumSq
  apply List.sum_nonneg
  intro x hx
  obtain ⟨y, _, rfl⟩ := List.mem_map.mp hx
  exact mul_self_nonneg y

/-- The L2 norm vanishes exactly when the sum of squares does. -/
theorem norm2_eq_zero_iff (v : List ℝ) : norm2 v = 0 ↔ sumSq v = 0 := by
  unfold norm2
  exact Real.sqrt_eq_zero (sumSq_nonneg v)

/-- A vector with vanishing sum of squares is the zero vector. -/
theorem sumSq_eq_zero_iff (v : List ℝ) :
    sumSq v = 0 ↔ v = List.replicate v.length 0 := by
  induction v with
  | nil => simp [sumSq]
  | cons x xs ih =>
    have hx : (0:ℝ) ≤ x * x := mul_self_nonneg x
    have hxs : 0 ≤ sumSq xs := sumSq_nonneg xs
    have hstep : sumSq (x :: xs) = x * x + sumSq xs := by
      simp [sumSq]
    rw [hstep, List.length_cons, List.replicate_succ,
      add_eq_zero_iff_of_nonneg hx hxs, mul_self_eq_zero]
    constructor
    · rintro ⟨rfl, h2⟩
      simpa using ih.mp h2
    · intro h
      obtain ⟨h1, h2⟩ := List.cons_eq_cons.mp h
      exact ⟨h1, ih.mpr (by rw [h2]; simp)⟩

/-- Dividing every entry by `c` divides the sum of squares by `c * c`. -/
theorem sumSq_map_div (v : List ℝ) (c : ℝ) (hc : c ≠ 0) :
    sumSq (v.map (fun x => x / c)) = sumSq v / (c * c) := by
  induction v with
  | nil => simp [sumSq]
  | cons x xs ih =>
    have h1 : sumSq ((x :: xs).map (fun x => x / c)) =
        (x / c) * (x / c) + sumSq (xs.map (fun x => x / c)) := by
      simp [sumSq]
    have h2 : sumSq (x :: xs) = x * x + sumSq xs := by
      simp [sumSq]
    rw [h1, h2, ih]
    field_simp

/-- Dividing a vector of nonzero norm by its norm yields a unit vector. -/
theorem norm2_normalize_of_ne_zero (v : List ℝ) (h : norm2 v ≠ 0) :
    norm2 (v.map (fun x => x / norm2 v)) = 1 := by
  have hnn : 0 ≤ norm2 v := Real.sqrt_nonneg _
  unfold norm2 at *
  rw [sumSq_map_div v _ h, Real.sqrt_div (sumSq_nonneg v),
    Real.sqrt_mul_self hnn]
  exact div_self h

/-- C4: for every real vector and positive target dimensionality,
`normalize (truncate_or_pad_vector v d)` has exactly length `d`; when its
input's L2 norm is nonzero the result has L2 norm 1, and when the norm is
zero the input — which is then the zero vector of length `d` — is returned
unchanged. -/
theorem normalize_truncate_or_pad_spec (v : List ℝ) (d : Nat) (_hd : 0 < d) :
    (normalize (truncate_or_pad_vector v d)).length = d ∧
    (norm2 (truncate_or_pad_vector v d) ≠ 0 →
      norm2 (normalize (truncate_or_pad_vector v d)) = 1) ∧
    (norm2 (truncate_or_pad_vector v d) = 0 →
      normalize (truncate_or_pad_vector v d) = truncate_or_pad_vector v d ∧
      truncate_or_pad_vector v d = List.replicate d 0) := by
  refine ⟨?_, ?_, ?_⟩
  · unfold normalize
    split
    · exact length_truncate_or_pad v d
    · rw [List.length_map]
      exact length_truncate_or_pad v d
  · intro h
    unfold normalize
    rw [if_neg h]
    exact norm2_normalize_of_ne_zero _ h
  · intro h
    constructor
    · unfold normalize
      rw [if_pos h]
    · have hz := (sumSq_eq_zero_iff _).mp ((norm2_eq_zero_iff _).mp h)
      rwa [length_truncate_or_pad v d] at hz

/-- Witness for C4 at `v = [3, 4]`, `d = 2`: the nonzero-norm hypothesis holds
(the sum of squares is 25), and the normalized vector has length 2 and norm 1. -/
theorem normalize_truncate_or_pad_witness :
    (0 : Nat) < 2 ∧
    norm2 (truncate_or_pad_vector [(3:ℝ), 4] 2) ≠ 0 ∧
    (normalize (truncate_or_pad_vector [(3:ℝ), 4] 2)).length = 2 ∧
    norm2 (normalize (truncate_or_pad_vector [(3:ℝ), 4] 2)) = 1 := by
  have hne : norm2 (truncate_or_pad_vector [(3:ℝ), 4] 2) ≠ 0 := by
    rw [Ne, norm2_eq_zero_iff]
    simp [truncate_or_pad_vector, sumSq]
    norm_num
  exact ⟨by norm_num, hne,
    (normalize_truncate_or_pad_spec [3, 4] 2 (by norm_num)).1,
    (normalize_truncate_or_pad_spec [3, 4] 2 (by norm_num)).2.1 hne⟩

/-- Unfolding equation of `monitorRun` on a nonempty poll stream. -/
theorem monitorRun_cons (p : Poll) (l : List Poll) (last : Option String) (count : Nat) :
    monitorRun (p :: l) last count =
      if doneLike p.status then
        progressActions p last ++ [.removeCrawler, .publishCompleted]
      else if errorLike p.status ∧ nextCount p last count > 3 then
        progressActions p last ++ [.removeCrawler, .publishFailed p.error_message]
      else
        progressActions p last ++ monitorRun l (some p.status) (nextCount p last count) :=
  rfl

/-- A progress publication is never a failure publication. -/
theorem publishFailed_not_mem_progress (err : String) (p : Poll) (last : Option String) :
    MonitorAction.publishFailed err ∉ progressActions p last := by
  unfold progressActions
  split <;> simp

/-- Invariant-carrying induction for C5: whenever the monitor publishes
`crawler_failed`, the trace ends right there with the registry removal
immediately before it, the triggering poll is error-like and supplies the
error payload, and the status history up to and including that poll ends in
five consecutive identical error-like observations. -/
theorem monitorRun_failed_aux (polls : List Poll) (err : String) :
    ∀ (h : List String) (last : Option String) (count : Nat),
    MonitorInv h last count →
    MonitorAction.publishFailed err ∈ monitorRun polls last count →
    ∃ n p t pre,
      polls[n]? = some p ∧ err = p.error_message ∧ errorLike p.status = true ∧
      h ++ (polls.map Poll.status).take (n + 1) = pre ++ List.replicate 5 p.status ∧
      monitorRun polls last count = t ++ [.removeCrawler, .publishFailed p.error_message] ∧
      monitorRun polls last count = monitorRun (polls.take (n + 1)) last count := by
  induction polls with
  | nil =>
    intro h last count _ hmem
    simp [monitorRun] at hmem
  | cons p rest ih =>
    intro h last count hinv hmem
    rw [monitorRun_cons] at hmem
    by_cases hdone : doneLike p.status = true
    · rw [if_pos hdone] at hmem
      rcases List.mem_append.mp hmem with hmem | hmem
      · exact absurd hmem (publishFailed_not_mem_progress err p last)
      · simp at hmem
    · rw [if_neg hdone] at hmem
      by_cases herr : errorLike p.status = true ∧ nextCount p last count > 3
      · -- the failure branch fires on this poll
        rw [if_pos herr] at hmem
        have hlast : last = some p.status := by
          by_contra hne
          have h0 : nextCount p last count = 0 := by
            unfold nextCount
            rw [if_neg (fun hc => hne hc.symm)]
          rw [h0] at herr
          omega
        have hprog : progressActions p last = [] := by
          unfold progressActions
          rw [if_neg (fun hc => hc hlast.symm)]
        have hcount : nextCount p last count = count + 1 := by
          unfold nextCount
          rw [if_pos hlast.symm]
        have hcge : 3 ≤ count := by
          rw [hcount] at herr
          omega
        obtain ⟨pre0, hpre0⟩ := hinv p.status hlast
        have herr2 : err = p.error_message := by
          rw [hprog] at hmem
          simp at hmem
          exact hmem
        refine ⟨0, p, [], pre0 ++ List.replicate (count - 3) p.status, by simp, herr2,
          herr.1, ?_, ?_, ?_⟩
        · rw [List.map_cons, List.take_succ_cons, List.take_zero, hpre0,
            List.append_assoc, List.append_assoc, ← List.replicate_add,
            ← List.replicate_succ']
          congr 2
          omega
        · rw [monitorRun_cons, if_neg hdone, if_pos herr, hprog]
        · rw [List.take_succ_cons, List.take_zero, monitorRun_cons p rest,
            monitorRun_cons p [], if_neg hdone, if_neg hdone, if_pos herr,
            if_pos herr]
      · -- the loop continues with the next poll
        rw [if_neg herr] at hmem
        rcases List.mem_append.mp hmem with hmem | hmem
        · exact absurd hmem (publishFailed_not_mem_progress err p last)
        · have hinv' : MonitorInv (h ++ [p.status]) (some p.status)
              (nextCount p last count) := by
            intro s hs
            injection hs with hs
            subst hs
            by_cases hl : some p.status = last
            · obtain ⟨pre0, hpre0⟩ := hinv p.status hl.symm
              refine ⟨pre0, ?_⟩
              unfold nextCount
              rw [if_pos hl, hpre0, List.append_assoc, ← List.replicate_succ']
            · refine ⟨h, ?_⟩
              unfold nextCount
              rw [if_neg hl]
              simp
          obtain ⟨n, p', t, pre, h1, h2, h3, h4, h5, h6⟩ :=
            ih (h ++ [p.status]) (some p.status) (nextCount p last count) hinv' hmem
          refine ⟨n + 1, p', progressActions p last ++ t, pre, ?_, h2, h3, ?_, ?_, ?_⟩
          · simpa using h1
          · rw [List.map_cons, List.take_succ_cons, List.append_cons]
            exact h4
          · rw [monitorRun_cons, if_neg hdone, if_neg herr, h5,
              ← List.append_assoc]
          · rw [List.take_succ_cons, monitorRun_cons p rest,
              monitorRun_cons p (rest.take (n + 1)), if_neg hdone, if_neg hdone,
              if_neg herr, if_neg herr, h6]

/-- C5: in every execution of the status-polling loop (from its initial state
`last_status = None`, counter 0), a `crawler_failed` publication only happens
at a poll `p` whose status is error-like and after the status history up to
and including `p` ends with five consecutive identical observations of
`p.status` — i.e. an error-like status observed for more than `N = 4`
consecutive polls without a change; when it happens, the registry removal is
emitted immediately before the `crawler_failed` event (which carries the
triggering poll's error payload), those are the last two actions of the
trace, and the loop consumes no further polls. -/
theorem monitor_failed_only_after_threshold (polls : List Poll) (err : String)
    (hmem : MonitorAction.publishFailed err ∈ monitorRun polls none 0) :
    ∃ n p t pre,
      polls[n]? = some p ∧ err = p.error_message ∧ errorLike p.status = true ∧
      (polls.map Poll.status).take (n + 1) = pre ++ List.replicate 5 p.status ∧
      monitorRun polls none 0 =
        t ++ [.removeCrawler, .publishFailed p.error_message] ∧
      monitorRun polls none 0 = monitorRun (polls.take (n + 1)) none 0 := by
  have h0 : MonitorInv [] none 0 := by
    intro s hs
    exact Option.noConfusion hs
  obtain ⟨n, p, t, pre, h1, h2, h3, h4, h5, h6⟩ :=
    monitorRun_failed_aux polls err [] none 0 h0 hmem
  exact ⟨n, p, t, pre, h1, h2, h3, by simpa using h4, h5, h6⟩

/-- Witness for C5 on five consecutive `failed` polls: the failure event is
published, so the threshold characterization applies. -/
theorem monitor_failed_only_after_threshold_witness :
    (MonitorAction.publishFailed "spider crashed" ∈ monitorRun failingPolls none 0) ∧
    (∃ n p t pre,
      failingPolls[n]? = some p ∧ "spider crashed" = p.error_message ∧
      errorLike p.status = true ∧
      (failingPolls.map Poll.status).take (n + 1) = pre ++ List.replicate 5 p.status ∧
      monitorRun failingPolls none 0 =
        t ++ [.removeCrawler, .publishFailed p.error_message] ∧
      monitorRun failingPolls none 0 = monitorRun (failingPolls.take (n + 1)) none 0) :=
  ⟨by decide,
   monitor_failed_only_after_threshold failingPolls "spider crashed" (by decide)⟩

end Crawler
